/-
Verification of the AI video generation pipeline
(`video_pipeline.py`, `app.py`) against its natural-language
specification.

The embedding is shallow: media durations are rationals (Python floats
carry exact small decimals in every case of interest), external services
(Groq, ElevenLabs, Edge TTS, Pexels, ffmpeg, moviepy file loading) are
oracles passed in as parameters, and Python exceptions are `Option` /
`Except` failures.  Each definition mirrors one function of the source.
-/
import Mathlib

namespace VideoPipeline

/-! ## Data model (section 3 of the spec, `script_data` dictionaries) -/

/-- One scene of a script: `{"duration": .., "description": .., "text": ..}`. -/
structure Scene where
  duration : ℚ
  description : String
  text : String
  deriving Repr, DecidableEq

/-- A script: `{"title": .., "script": .., "scenes": [..]}`. -/
structure Script where
  title : String
  script : String
  scenes : List Scene
  deriving Repr, DecidableEq

/-- Sum of the declared scene durations,
`sum(scene['duration'] for scene in script_data['scenes'])`. -/
def sumDurations (scenes : List Scene) : ℚ :=
  (scenes.map Scene.duration).sum

/-! ## Script generator (`step1_generate_script`, `_generate_fallback_script`) -/

/-- `_generate_fallback_script`: the deterministic fallback script built
purely from the topic string (video_pipeline.py lines 122-134). -/
def generate_fallback_script (topic : String) : Script :=
  { title := "Everything About " ++ topic
  , script := "Welcome to our video about " ++ topic ++
      ". This is a fascinating subject that many people want to learn about. " ++
      topic ++ " has a rich history and many interesting aspects. Let\x27s explore the key concepts together. Understanding " ++
      topic ++ " can open up new possibilities. Thank you for watching this video about " ++
      topic ++ "."
  , scenes :=
      [ { duration := 10, description := "intro to " ++ topic
        , text := "Welcome to our video about " ++ topic ++ "." }
      , { duration := 10, description := topic ++ " history"
        , text := "This is a fascinating subject that many people want to learn about. " ++ topic ++ " has a rich history." }
      , { duration := 10, description := topic ++ " concepts"
        , text := "Let\x27s explore the key concepts together." }
      , { duration := 10, description := topic ++ " applications"
        , text := "Understanding " ++ topic ++ " can open up new possibilities." }
      , { duration := 10, description := topic ++ " conclusion"
        , text := "Thank you for watching this video about " ++ topic ++ "." } ] }

/-- `step1_generate_script`: with no `GROQ_API_KEY` the fallback script is
returned at once; otherwise the external call is attempted and any
exception (network error, malformed JSON, missing keys) falls back.
`groqResponse` is the oracle for the external call: `some s` is a
successfully parsed response, `none` is any exception. -/
def step1_generate_script (groq_api_key : String) (groqResponse : Option Script)
    (topic : String) : Script :=
  if groq_api_key = "" then generate_fallback_script topic
  else
    match groqResponse with
    | some s => s
    | none => generate_fallback_script topic

/-! ## Voiceover synthesizer (`step2_generate_voiceover` and helpers) -/

/-- The part of an HTTP response `_generate_elevenlabs_audio` looks at:
the status code and the size of the returned audio bytes. -/
structure HttpResponse where
  status_code : ℕ
  content_size : ℕ
  deriving Repr, DecidableEq

/-- `_generate_elevenlabs_audio` (lines 210-242): on a 200 response the
bytes are written to `output_path` and the path returned — the file size
is printed but never checked; on any other status an exception is raised. -/
def elevenlabs_audio (resp : HttpResponse) (output_path : String) :
    Except String String :=
  if resp.status_code = 200 then Except.ok output_path
  else Except.error ("ElevenLabs API error")

/-- Outcome of the `edge_tts` call in `_generate_edge_tts_audio`:
either the audio file was created with some byte size, or it was not
created (or the call itself raised). -/
inductive EdgeResult where
  | created (size : ℕ)
  | notCreated
  deriving Repr, DecidableEq

/-- `_create_silent_audio` (lines 244-263): runs ffmpeg `anullsrc`; on
returncode 0 the path is returned, otherwise an exception is raised
(`none`), which propagates out of the voiceover step. -/
def create_silent_audio (ffmpeg_ok : Bool) (output_path : String) :
    Option String :=
  if ffmpeg_ok then some output_path else none

/-- `_generate_edge_tts_audio` (lines 161-208): if the file exists its size
is checked — `file_size < 1000` raises "Audio file too small"; a missing
file raises too.  Every exception is caught and the silent-audio fallback
is attempted. -/
def generate_edge_tts_audio (res : EdgeResult) (ffmpeg_ok : Bool)
    (output_path : String) : Option String :=
  match res with
  | EdgeResult.created size =>
      if size < 1000 then create_silent_audio ffmpeg_ok output_path
      else some output_path
  | EdgeResult.notCreated => create_silent_audio ffmpeg_ok output_path

/-- `step2_generate_voiceover` (lines 136-159): ElevenLabs is tried first
when its key is set, any exception falling through to Edge TTS. -/
def step2_generate_voiceover (elevenlabs_api_key : String)
    (resp : HttpResponse) (edge : EdgeResult) (ffmpeg_ok : Bool)
    (output_path : String) : Option String :=
  if elevenlabs_api_key = "" then
    generate_edge_tts_audio edge ffmpeg_ok output_path
  else
    match elevenlabs_audio resp output_path with
    | Except.ok p => some p
    | Except.error _ => generate_edge_tts_audio edge ffmpeg_ok output_path

/-! ## Visual acquirer (`step3_fetch_visuals` and helpers) -/

/-- The fixed color palette of `_create_colored_background` (line 328). -/
def colors : List String :=
  ["#FF6B6B", "#4ECDC4", "#45B7D1", "#FFA07A", "#98D8C8", "#F38181", "#AA96DA"]

/-- `colors[index % len(colors)]`. -/
def scene_color (i : ℕ) : String := colors.getD (i % colors.length) ("")

/-- `text.replace("'", "").replace('"', '').replace(':', ' ')[:80]`. -/
def clean_text (text : String) : String :=
  ((((text.replace ("\x27") ("")).replace ("\"") ("")).replace (":") (" "))).take 80

/-- What `_create_colored_background` (lines 326-355) renders: an 8-second
colored 1920x1080 clip, with the cleaned caption when the drawtext ffmpeg
invocation succeeds and a plain background otherwise.  Both ffmpeg
failures are caught inside the function, so it never raises. -/
structure BackgroundSpec where
  color : String
  caption : Option String
  duration : ℚ
  deriving Repr, DecidableEq

/-- `_create_colored_background`: total — every failure path is absorbed. -/
def create_colored_background (drawtext_ok : Bool) (text : String) (i : ℕ) :
    BackgroundSpec :=
  { color := scene_color i
  , caption := if drawtext_ok then some (clean_text text) else none
  , duration := 8 }

/-- Outcome of the Pexels search-and-download attempt for one scene:
a qualifying url found and downloaded, no qualifying result (`None`
returned), or an exception (network error, download failure). -/
inductive PexelsOutcome where
  | url (link : String)
  | noResult
  | failure
  deriving Repr, DecidableEq

/-- `self.output_dir / f"visual_{i}.mp4"`. -/
def visual_path (i : ℕ) : String :=
  "output/visual_" ++ (toString i) ++ ".mp4"

/-- One iteration of the loop in `step3_fetch_visuals` (lines 274-294):
with a Pexels key a successful search downloads to `visual_{i}.mp4` and
appends that path; a `None` search result or a caught exception falls
back to the colored background, written to the same path, which is then
appended.  Exactly one path is appended on every branch. -/
def fetch_visual_for_scene (pexels_api_key : String) (outcome : PexelsOutcome)
    (drawtext_ok : Bool) (scene : Scene) (i : ℕ) : String :=
  if pexels_api_key = "" then
    let _ := create_colored_background drawtext_ok scene.text i
    visual_path i
  else
    match outcome with
    | PexelsOutcome.url _ => visual_path i
    | PexelsOutcome.noResult =>
        let _ := create_colored_background drawtext_ok scene.text i
        visual_path i
    | PexelsOutcome.failure =>
        let _ := create_colored_background drawtext_ok scene.text i
        visual_path i

/-- The `for i, scene in enumerate(script_data["scenes"])` loop of
`step3_fetch_visuals`, with the running index made explicit. -/
def step3_go (pexels_api_key : String) (outcome : ℕ → PexelsOutcome)
    (drawtext_ok : ℕ → Bool) : ℕ → List Scene → List String
  | _, [] => []
  | i, scene :: rest =>
      fetch_visual_for_scene pexels_api_key (outcome i) (drawtext_ok i) scene i ::
        step3_go pexels_api_key outcome drawtext_ok (i + 1) rest

/-- `step3_fetch_visuals` (lines 265-296). -/
def step3_fetch_visuals (pexels_api_key : String) (outcome : ℕ → PexelsOutcome)
    (drawtext_ok : ℕ → Bool) (scenes : List Scene) : List String :=
  step3_go pexels_api_key outcome drawtext_ok 0 scenes

/-! ## Video assembler (`step4_combine_into_video`) -/

/-- Python `int(..)` on a rational: truncation toward zero.  On the
normalized numerator/denominator this is `Int.tdiv`. -/
def pyInt (q : ℚ) : ℤ :=
  q.num.tdiv q.den

/-- `loops_needed = int(scene_duration / clip.duration) + 1` (line 402). -/
def scene_loops (d c : ℚ) : ℤ := pyInt (d / c) + 1

/-- Written from the SPEC's words, for comparison with `scene_loops`:
"loop the clip end-to-end `ceil(d_i / c_i)` times". -/
def spec_scene_loops (d c : ℚ) : ℤ := ⌈d / c⌉

/-- Per-scene normalization (lines 397-406) of a clip of intrinsic
duration `c` against a scene duration `d`; returns the duration of the
normalized clip, `none` when the body raises (caught by the per-scene
handler, which skips the scene):
* `c > d`: `subclip(0, d)` — duration `d`;
* `c < d`: `c = 0` raises `ZeroDivisionError`; a non-positive loop count
  makes `[clip] * loops_needed` empty and `concatenate_videoclips` raise;
  otherwise the looped clip (duration `c * loops`) is `subclip(0, d)`-ed
  to duration `d` (moviepy sets the subclip duration to `t_end` without
  checking it against the source duration);
* `c = d`: the clip is left as is.
The `resize(height=1080)` call does not change the duration. -/
def normalize_clip (d c : ℚ) : Option ℚ :=
  if c > d then some d
  else if c < d then
    if c = 0 then none
    else if scene_loops d c ≤ 0 then none
    else some d
  else some c

/-- The clip-loading loop (lines 389-414): pairs `(scene duration, load
result)` in order; a failed load (`none`) or a raising normalization is
skipped by the `continue`, a normalized clip contributes its duration. -/
def load_clips : List (ℚ × Option ℚ) → List ℚ
  | [] => []
  | (_, none) :: rest => load_clips rest
  | (d, some c) :: rest =>
      match normalize_clip d c with
      | none => load_clips rest
      | some f => f :: load_clips rest

/-- `loops_needed = int(audio_duration / final_video.duration) + 1`
(line 432). -/
def global_loops (A T : ℚ) : ℤ := pyInt (A / T) + 1

/-- Global duration reconciliation (lines 429-437) of the concatenated
stream of duration `T` against the audio duration `A`; returns the final
stream duration, `none` when the branch raises (`T = 0` divides by zero,
a non-positive loop count empties the concatenation list):
* `T < A`: loop `global_loops A T` times then `subclip(0, A)`;
* `T > A`: `subclip(0, A)`;
* `T = A`: unchanged. -/
def reconcile (T A : ℚ) : Option ℚ :=
  if T < A then
    if T = 0 then none
    else if global_loops A T ≤ 0 then none
    else some A
  else if T > A then some A
  else some T

/-- `step4_combine_into_video` (lines 357-513).  `scene_durations` are the
declared durations `script_data["scenes"][i]["duration"]`; `loads i` is
the oracle for `VideoFileClip(visual_paths[i])` — `none` when loading
raises; `audio_duration` is `AudioFileClip(audio_path).duration`;
`encode_ok` is the oracle for `write_videofile`.  Returns the output path
together with the duration of the written video stream, or `none` on the
`return None` paths (no valid clips, or an exception caught by the outer
handler). -/
def step4_combine_into_video (scene_durations : List ℚ)
    (loads : List (Option ℚ)) (audio_duration : ℚ) (encode_ok : Bool)
    (output_path : String) : Option (String × ℚ) :=
  let clips := load_clips (scene_durations.zip loads)
  if clips.isEmpty then none
  else
    match reconcile clips.sum audio_duration with
    | none => none
    | some dur => if encode_ok then some (output_path, dur) else none

/-! ## Metadata (`_generate_metadata`) and orchestration -/

/-- The `youtube_metadata.json` document (lines 570-587). -/
structure Metadata where
  title : String
  description : String
  tags : List String
  category : String
  video_path : String
  duration_seconds : ℚ
  scenes : ℕ
  deriving Repr, DecidableEq

/-- `_generate_metadata`: `duration_seconds` is the sum of the declared
scene durations of the script, not a probe of the produced file. -/
def generate_metadata (script_data : Script) (video_path : String) : Metadata :=
  { title := script_data.title
  , description := script_data.script
  , tags := ["AI Generated", "Educational", "Tutorial", "Automated Video"]
  , category := "Education"
  , video_path := video_path
  , duration_seconds := sumDurations script_data.scenes
  , scenes := script_data.scenes.length }

/-! ## Web front end (`app.py`) -/

/-- The `generation_status` record of app.py (lines 25-31). -/
structure GenerationStatus where
  status : String
  message : String
  progress : ℕ
  video_path : Option String
  error : Option String
  deriving Repr, DecidableEq

/-- The initial / reset status record. -/
def idle_status : GenerationStatus :=
  { status := "idle", message := "Ready to generate videos", progress := 0
  , video_path := none, error := none }

/-- The response of the `/generate` route: an error JSON with an HTTP
code, or the started JSON. -/
inductive GenerateResponse where
  | rejected (error : String) (code : ℕ)
  | started (message : String) (status : String)
  deriving Repr, DecidableEq

/-- What a call to the `generate` handler produces: the HTTP response,
the status record as the handler leaves it, and whether a background
generation thread was started. -/
structure GenerateResult where
  response : GenerateResponse
  newStatus : GenerationStatus
  jobStarted : Bool
  deriving Repr, DecidableEq

/-- The whitespace characters `str.strip()` removes (ASCII range). -/
def isPySpace (c : Char) : Bool :=
  c = ' ' || c = '\t' || c = '\n' || c = '\r' || c = '\x0b' || c = '\x0c'

/-- Python `topic.strip()`. -/
def pyStrip (s : String) : String :=
  String.mk (((s.toList.dropWhile isPySpace).reverse.dropWhile isPySpace).reverse)

/-- The `/generate` route handler (app.py lines 111-129): under the status
lock, a `running` status rejects the request with a 400 and touches
nothing; then an empty stripped topic rejects with a 400; otherwise the
background thread is started and the started JSON returned.  The handler
itself never writes `generation_status`; only the background thread does,
and it is not started on either rejection path. -/
def generate (st : GenerationStatus) (topic : String) : GenerateResult :=
  if st.status = "running" then
    { response := GenerateResponse.rejected ("Video generation already in progress") 400
    , newStatus := st, jobStarted := false }
  else if pyStrip topic = "" then
    { response := GenerateResponse.rejected ("Please provide a topic") 400
    , newStatus := st, jobStarted := false }
  else
    { response := GenerateResponse.started ("Video generation started") ("running")
    , newStatus := st, jobStarted := true }

/-! ## Helper lemmas -/

theorem pyInt_nonneg {q : ℚ} (h : 0 ≤ q) : 0 ≤ pyInt q :=
  Int.tdiv_nonneg (Rat.num_nonneg.mpr h) (Int.natCast_nonneg _)

theorem pyInt_eq_floor {q : ℚ} (h : 0 ≤ q) : pyInt q = ⌊q⌋ := by
  rw [pyInt, Rat.floor_def,
    Int.tdiv_eq_ediv (Rat.num_nonneg.mpr h) (Int.natCast_nonneg _)]

theorem scene_loops_pos {d c : ℚ} (hd : 0 ≤ d) (hc : 0 ≤ c) :
    0 < scene_loops d c := by
  have h := pyInt_nonneg (div_nonneg hd hc)
  unfold scene_loops
  omega

theorem global_loops_pos {A T : ℚ} (hA : 0 ≤ A) (hT : 0 ≤ T) :
    0 < global_loops A T := by
  have h := pyInt_nonneg (div_nonneg hA hT)
  unfold global_loops
  omega

theorem normalize_clip_of_pos {d c : ℚ} (hd : 0 < d) (hc : 0 < c) :
    normalize_clip d c = some d := by
  unfold normalize_clip
  rcases lt_trichotomy c d with h | h | h
  · rw [if_neg (not_lt.mpr h.le), if_pos h, if_neg hc.ne',
      if_neg (not_le.mpr (scene_loops_pos hd.le hc.le))]
  · subst h
    rw [if_neg (lt_irrefl c), if_neg (lt_irrefl c)]
  · rw [if_pos h]

theorem normalize_clip_some_eq {d c f : ℚ} (h : normalize_clip d c = some f) :
    f = d := by
  unfold normalize_clip at h
  split_ifs at h with h1 h2 h3 h4
  · exact (Option.some.inj h).symm
  · exact (Option.some.inj h).symm
  · have hcd : c = d := le_antisymm (not_lt.mp h1) (not_lt.mp h2)
    rw [← hcd]
    exact (Option.some.inj h).symm

theorem load_clips_nil : load_clips [] = [] := rfl

theorem load_clips_cons_none (d : ℚ) (rest : List (ℚ × Option ℚ)) :
    load_clips ((d, none) :: rest) = load_clips rest := rfl

theorem load_clips_cons_some {d c : ℚ} (hd : 0 < d) (hc : 0 < c)
    (rest : List (ℚ × Option ℚ)) :
    load_clips ((d, some c) :: rest) = d :: load_clips rest := by
  simp only [load_clips, normalize_clip_of_pos hd hc]

theorem load_clips_nonneg :
    ∀ l : List (ℚ × Option ℚ), (∀ p ∈ l, 0 ≤ p.1) → ∀ f ∈ load_clips l, 0 ≤ f
  | [], _, f, hf => by simp [load_clips] at hf
  | (d, none) :: rest, h, f, hf => by
      rw [load_clips_cons_none] at hf
      exact load_clips_nonneg rest (fun p hp => h p (List.mem_cons_of_mem _ hp)) f hf
  | (d, some c) :: rest, h, f, hf => by
      simp only [load_clips] at hf
      cases hn : normalize_clip d c with
      | none =>
          rw [hn] at hf
          exact load_clips_nonneg rest (fun p hp => h p (List.mem_cons_of_mem _ hp)) f hf
      | some g =>
          rw [hn] at hf
          rcases List.mem_cons.mp hf with rfl | hf'
          · rw [normalize_clip_some_eq hn]
            exact h (d, some c) (List.mem_cons_self _ _)
          · exact load_clips_nonneg rest
              (fun p hp => h p (List.mem_cons_of_mem _ hp)) f hf'

theorem mem_load_clips {d c f : ℚ} :
    ∀ {l : List (ℚ × Option ℚ)}, (d, some c) ∈ l →
      normalize_clip d c = some f → f ∈ load_clips l
  | [], hmem, _ => by simp at hmem
  | p :: rest, hmem, hn => by
      rcases List.mem_cons.mp hmem with heq | h'
      · rw [← heq]
        simp only [load_clips, hn]
        exact List.mem_cons_self _ _
      · rcases p with ⟨d', oc⟩
        cases oc with
        | none =>
            rw [load_clips_cons_none]
            exact mem_load_clips h' hn
        | some c' =>
            simp only [load_clips]
            cases hn' : normalize_clip d' c' with
            | none => exact mem_load_clips h' hn
            | some g => exact List.mem_cons_of_mem _ (mem_load_clips h' hn)

theorem load_clips_cons_match (d c : ℚ) (rest : List (ℚ × Option ℚ)) :
    load_clips ((d, some c) :: rest) =
      (match normalize_clip d c with
       | none => load_clips rest
       | some f => f :: load_clips rest) := rfl

theorem load_clips_append_none :
    ∀ (l₁ l₂ : List (ℚ × Option ℚ)) (d : ℚ),
      load_clips (l₁ ++ (d, none) :: l₂) = load_clips (l₁ ++ l₂)
  | [], l₂, d => load_clips_cons_none d l₂
  | (d', none) :: rest, l₂, d => by
      rw [List.cons_append, List.cons_append, load_clips_cons_none,
        load_clips_cons_none]
      exact load_clips_append_none rest l₂ d
  | (d', some c') :: rest, l₂, d => by
      rw [List.cons_append, List.cons_append, load_clips_cons_match,
        load_clips_cons_match]
      cases normalize_clip d' c' with
      | none => exact load_clips_append_none rest l₂ d
      | some g => exact congrArg (List.cons g) (load_clips_append_none rest l₂ d)

theorem load_clips_all_none :
    ∀ ds : List ℚ, load_clips (ds.zip (List.replicate ds.length none)) = []
  | [] => rfl
  | d :: rest => by
      simp only [List.length_cons, List.replicate_succ, List.zip_cons_cons,
        load_clips_cons_none]
      exact load_clips_all_none rest

theorem reconcile_some {T A x : ℚ} (h : reconcile T A = some x) : x = A := by
  unfold reconcile at h
  split_ifs at h with h1 h2 h3 h4
  · exact (Option.some.inj h).symm
  · exact (Option.some.inj h).symm
  · have hTA : T = A := le_antisymm (not_lt.mp h4) (not_lt.mp h1)
    rw [← hTA]
    exact (Option.some.inj h).symm

theorem reconcile_of_pos {T A : ℚ} (hT : 0 < T) : reconcile T A = some A := by
  unfold reconcile
  rcases lt_trichotomy T A with h | h | h
  · rw [if_pos h, if_neg hT.ne',
      if_neg (not_le.mpr (global_loops_pos (hT.trans h).le hT.le))]
  · rw [if_neg (not_lt.mpr h.le), if_neg (not_lt.mpr h.ge), h]
  · rw [if_neg (not_lt.mpr h.le), if_pos h]

theorem step4_eq_some_of_pos_sum {ds : List ℚ} {loads : List (Option ℚ)}
    {A : ℚ} {p : String} (hne : load_clips (ds.zip loads) ≠ [])
    (hT : 0 < (load_clips (ds.zip loads)).sum) :
    step4_combine_into_video ds loads A true p = some (p, A) := by
  simp only [step4_combine_into_video, List.isEmpty_iff, if_neg hne,
    reconcile_of_pos hT, if_true]

/-! ## Claim theorems -/

/-- C1: for every run of the assembler (`step4_combine_into_video`) that
returns a video path, with audio track duration `A` and at least one
loadable visual clip, the duration of the final video stream equals `A`
exactly — both when the total concatenated scene-visual duration `T` is
below `A` (loop then trim) and when it is above `A` (trim); a returned
path entails at least one loaded clip, so the hypothesis is just the
successful return. -/
theorem C1_final_duration_eq_audio (ds : List ℚ) (loads : List (Option ℚ))
    (A : ℚ) (enc : Bool) (p : String) (out : String × ℚ)
    (h : step4_combine_into_video ds loads A enc p = some out) : out.2 = A := by
  simp only [step4_combine_into_video] at h
  by_cases he : (load_clips (ds.zip loads)).isEmpty
  · rw [if_pos he] at h
    exact absurd h (by simp)
  · rw [if_neg he] at h
    cases hr : reconcile (load_clips (ds.zip loads)).sum A with
    | none => rw [hr] at h; exact absurd h (by simp)
    | some x =>
        rw [hr] at h
        cases enc with
        | false =>
            have h' : (none : Option (String × ℚ)) = some out := h
            exact Option.noConfusion h'
        | true =>
            have h' : some (p, x) = some out := h
            rw [← Option.some.inj h']
            exact reconcile_some hr

/-- C1 witness: a concrete successful run — scenes of 10 s with clips of
3 s and 15 s, audio 45 s (`T = 20 < 45`, loop-then-trim path). -/
theorem C1_witness : ((("final_video_1.mp4"), (45:ℚ)) : String × ℚ).2 = 45 := by
  refine C1_final_duration_eq_audio [10, 10] [some 3, some 15] 45 true
    ("final_video_1.mp4") (("final_video_1.mp4"), 45) ?_
  have hz : ([(10:ℚ), 10].zip [some (3:ℚ), some 15]) =
      [((10:ℚ), some (3:ℚ)), (10, some 15)] := rfl
  have hl : load_clips ([((10:ℚ), some (3:ℚ)), (10, some 15)]) = [10, 10] := by
    rw [load_clips_cons_some (by norm_num) (by norm_num),
      load_clips_cons_some (by norm_num) (by norm_num), load_clips_nil]
  have hs : ([(10:ℚ), 10].sum) = 20 := by norm_num
  have h := @step4_eq_some_of_pos_sum [10, 10] [some 3, some 15] 45
    ("final_video_1.mp4")
    (by rw [hz, hl]; exact List.cons_ne_nil _ _)
    (by rw [hz, hl, hs]; norm_num)
  exact h

/-- C2: the claim that a too-short clip is looped `ceil(d/c)` times is
false — the code computes `int(d/c) + 1` loops, which at `d = 10`,
`c = 5` is 3, not `ceil(10/5) = 2`. -/
theorem C2_counterexample :
    scene_loops 10 5 ≠ spec_scene_loops 10 5 ∧
    scene_loops 10 5 = 3 ∧ spec_scene_loops 10 5 = 2 := by
  have hq : (10:ℚ) / 5 = 2 := by norm_num
  have h1 : scene_loops 10 5 = 3 := by
    show pyInt ((10:ℚ) / 5) + 1 = 3
    rw [hq]
    decide
  have h2 : spec_scene_loops 10 5 = 2 := by
    show ⌈(10:ℚ) / 5⌉ = 2
    rw [hq]
    exact Int.ceil_ofNat 2
  refine ⟨?_, h1, h2⟩
  rw [h1, h2]
  decide

/-- C2 (amended): for every scene with declared duration `d > 0` and a
loadable clip of intrinsic duration `c > 0`, per-scene normalization
produces a clip of duration exactly `d`; when `c < d` the clip is looped
`⌊d/c⌋ + 1` times (i.e. `int(d/c) + 1`, one more than `ceil(d/c)` when
`c` divides `d`), which always covers `d`, and is then trimmed to exactly
`d`. -/
theorem C2_normalization_exact (d c : ℚ) (hd : 0 < d) (hc : 0 < c) :
    normalize_clip d c = some d ∧
    (c < d → scene_loops d c = ⌊d / c⌋ + 1 ∧
      d < c * ((scene_loops d c : ℤ) : ℚ)) := by
  refine ⟨normalize_clip_of_pos hd hc, fun hlt => ?_⟩
  have hfl : scene_loops d c = ⌊d / c⌋ + 1 := by
    unfold scene_loops
    rw [pyInt_eq_floor (div_nonneg hd.le hc.le)]
  refine ⟨hfl, ?_⟩
  have h1 : d / c < (⌊d / c⌋ : ℚ) + 1 := Int.lt_floor_add_one _
  have h2 : d < c * ((⌊d / c⌋ : ℚ) + 1) := (div_lt_iff₀' hc).mp h1
  rw [hfl]
  push_cast
  exact h2

/-- C2 witness: `d = 10`, `c = 3` — normalized to exactly 10 s after
`⌊10/3⌋ + 1 = 4` loops, which cover `3 · 4 = 12 > 10`. -/
theorem C2_witness :
    normalize_clip 10 3 = some 10 ∧
    (10:ℚ) < 3 * ((scene_loops 10 3 : ℤ) : ℚ) :=
  ⟨(C2_normalization_exact 10 3 (by norm_num) (by norm_num)).1,
   ((C2_normalization_exact 10 3 (by norm_num) (by norm_num)).2
      (by norm_num)).2⟩

/-- C3: the claim that a run with zero loadable visual clips synthesizes
a solid-color fallback clip and still returns a video path is false —
at a concrete all-failing input the assembler returns `None`
(`if not clips: ... return None`, lines 416-419). -/
theorem C3_counterexample :
    step4_combine_into_video [10, 10, 10, 10, 10]
      [none, none, none, none, none] 45 true ("final_video_1.mp4") = none := by
  decide

/-- C3 (amended): if zero visual clips can be loaded during assembly, the
assembler aborts: it closes the audio and reports failure with no video
path; no solid-color fallback clip is synthesized. -/
theorem C3_zero_clips_returns_none (ds : List ℚ) (A : ℚ) (enc : Bool)
    (p : String) :
    step4_combine_into_video ds (List.replicate ds.length none) A enc p
      = none := by
  simp only [step4_combine_into_video, load_clips_all_none, List.isEmpty_nil,
    if_true]

theorem fetch_visual_eq (key : String) (oc : PexelsOutcome) (dt : Bool)
    (sc : Scene) (i : ℕ) :
    fetch_visual_for_scene key oc dt sc i = visual_path i := by
  by_cases h : key = ""
  · simp [fetch_visual_for_scene, h]
  · cases oc <;> simp [fetch_visual_for_scene, h]

theorem step3_go_eq (key : String) (oc : ℕ → PexelsOutcome)
    (dt : ℕ → Bool) :
    ∀ (scenes : List Scene) (n : ℕ),
      step3_go key oc dt n scenes =
        (List.range' n scenes.length).map visual_path
  | [], n => by simp [step3_go]
  | sc :: rest, n => by
      rw [List.length_cons, List.range'_succ, List.map_cons]
      show fetch_visual_for_scene key (oc n) (dt n) sc n ::
          step3_go key oc dt (n + 1) rest = _
      rw [fetch_visual_eq, step3_go_eq key oc dt rest (n + 1)]

/-- C4: `step3_fetch_visuals` applied to any script's scenes returns an
ordered sequence with exactly one visual artifact per scene — the `i`-th
entry is the artifact path for scene `i` — whatever the Pexels key, the
per-scene Pexels outcomes (including exceptions) and the drawtext
outcomes are: every per-scene failure is absorbed by the placeholder
fallback and the function totals. -/
theorem C4_one_visual_per_scene (key : String) (oc : ℕ → PexelsOutcome)
    (dt : ℕ → Bool) (scenes : List Scene) :
    step3_fetch_visuals key oc dt scenes =
      (List.range scenes.length).map visual_path ∧
    (step3_fetch_visuals key oc dt scenes).length = scenes.length := by
  have h : step3_fetch_visuals key oc dt scenes =
      (List.range' 0 scenes.length).map visual_path :=
    step3_go_eq key oc dt scenes 0
  rw [List.range_eq_range']
  refine ⟨h, ?_⟩
  rw [h, List.length_map, List.length_range']

/-- C5: if one scene's visual fails to load while some other scene
provides a positive-duration loadable clip (all declared durations being
nonnegative, the loaded scene's positive), assembly is not aborted: the
failing scene is skipped — the result is the same as running without it —
and a final video is still produced, with stream duration equal to the
audio duration. -/
theorem C5_single_failure_skipped (ds₁ ds₂ : List ℚ)
    (l₁ l₂ : List (Option ℚ)) (dfail : ℚ) (A : ℚ) (p : String)
    (hlen : ds₁.length = l₁.length)
    (hnn : ∀ x ∈ (ds₁ ++ ds₂).zip (l₁ ++ l₂), 0 ≤ x.1)
    (dj cj : ℚ) (hmem : (dj, some cj) ∈ (ds₁ ++ ds₂).zip (l₁ ++ l₂))
    (hdj : 0 < dj) (hcj : 0 < cj) :
    step4_combine_into_video (ds₁ ++ dfail :: ds₂) (l₁ ++ none :: l₂) A true p
      = step4_combine_into_video (ds₁ ++ ds₂) (l₁ ++ l₂) A true p ∧
    step4_combine_into_video (ds₁ ++ dfail :: ds₂) (l₁ ++ none :: l₂) A true p
      = some (p, A) := by
  have hzip : (ds₁ ++ dfail :: ds₂).zip (l₁ ++ none :: l₂) =
      ds₁.zip l₁ ++ (dfail, none) :: ds₂.zip l₂ := by
    rw [List.zip_append hlen, List.zip_cons_cons]
  have hzip2 : (ds₁ ++ ds₂).zip (l₁ ++ l₂) = ds₁.zip l₁ ++ ds₂.zip l₂ :=
    List.zip_append hlen
  have hload : load_clips ((ds₁ ++ dfail :: ds₂).zip (l₁ ++ none :: l₂)) =
      load_clips ((ds₁ ++ ds₂).zip (l₁ ++ l₂)) := by
    rw [hzip, hzip2, load_clips_append_none]
  have hmemf : dj ∈ load_clips ((ds₁ ++ ds₂).zip (l₁ ++ l₂)) :=
    mem_load_clips hmem (normalize_clip_of_pos hdj hcj)
  have hne : load_clips ((ds₁ ++ ds₂).zip (l₁ ++ l₂)) ≠ [] := by
    intro heq
    rw [heq] at hmemf
    exact List.not_mem_nil _ hmemf
  have hsum : 0 < (load_clips ((ds₁ ++ ds₂).zip (l₁ ++ l₂))).sum :=
    lt_of_lt_of_le hdj
      (List.single_le_sum (load_clips_nonneg _ hnn) _ hmemf)
  have h2 : step4_combine_into_video (ds₁ ++ ds₂) (l₁ ++ l₂) A true p
      = some (p, A) := step4_eq_some_of_pos_sum hne hsum
  have h1 : step4_combine_into_video (ds₁ ++ dfail :: ds₂)
      (l₁ ++ none :: l₂) A true p
      = step4_combine_into_video (ds₁ ++ ds₂) (l₁ ++ l₂) A true p := by
    simp only [step4_combine_into_video, hload]
  exact ⟨h1, h1.trans h2⟩

/-- C5 witness: scenes of 10 s each with clips of 3 s, a failing load,
and 15 s; audio 45 s.  The failing middle scene is skipped and the video
is still produced. -/
theorem C5_witness :
    step4_combine_into_video [10, 10, 10] [some 3, none, some 15] 45 true
        ("final_video_2.mp4")
      = step4_combine_into_video [10, 10] [some 3, some 15] 45 true
        ("final_video_2.mp4") ∧
    step4_combine_into_video [10, 10, 10] [some 3, none, some 15] 45 true
        ("final_video_2.mp4") = some (("final_video_2.mp4"), 45) := by
  have h := C5_single_failure_skipped [10] [10] [some 3] [some 15] 10 45
    ("final_video_2.mp4") rfl
    (by
      intro x hx
      have hx' : x = ((10:ℚ), some (3:ℚ)) ∨ x = ((10:ℚ), some (15:ℚ)) := by
        simpa using hx
      rcases hx' with rfl | rfl <;> norm_num)
    10 3 (by simp) (by norm_num) (by norm_num)
  exact h

/-- C6: the claim that the fallback script has 3 scenes (30 s total) is
false — `_generate_fallback_script` builds 5 scenes of 10 s (50 s total),
as the concrete no-credentials run on the topic "Photosynthesis" shows. -/
theorem C6_counterexample :
    (step1_generate_script ("") none ("Photosynthesis")).scenes.length ≠ 3 := by
  decide

/-- C6 (amended): with no API credentials configured,
`step1_generate_script` returns the deterministic fallback script, which
has 5 scenes of 10 seconds each (50 s total). -/
theorem C6_fallback_script_shape (topic : String) (r : Option Script) :
    step1_generate_script ("") r topic = generate_fallback_script topic ∧
    (generate_fallback_script topic).scenes.length = 5 ∧
    (∀ sc ∈ (generate_fallback_script topic).scenes, sc.duration = 10) ∧
    sumDurations (generate_fallback_script topic).scenes = 50 := by
  refine ⟨rfl, rfl, ?_, ?_⟩
  · intro sc hsc
    simp only [generate_fallback_script, List.mem_cons, List.not_mem_nil,
      or_false] at hsc
    rcases hsc with rfl | rfl | rfl | rfl | rfl <;> rfl
  · simp only [sumDurations, generate_fallback_script, List.map_cons,
      List.map_nil, List.sum_cons, List.sum_nil]
    norm_num

/-- C7: the claim that every voiceover provider's artifact is
size-verified is false — a 200-status ElevenLabs response whose audio
content is 0 bytes is accepted and returned by `step2_generate_voiceover`
with no fall-through, even in a state where the Edge-TTS tier would have
failed (so the result can only come from the unverified primary
artifact). -/
theorem C7_counterexample :
    step2_generate_voiceover ("key") { status_code := 200, content_size := 0 }
        EdgeResult.notCreated false ("voiceover.mp3") = some ("voiceover.mp3") ∧
    generate_edge_tts_audio EdgeResult.notCreated false ("voiceover.mp3")
      = none := by
  decide

/-- C7 (amended): only the free Edge-TTS tier verifies the artifact size —
an artifact below 1000 bytes is treated as a synthesis failure and falls
through to the silent-audio fallback — while the primary paid service
(ElevenLabs) performs no size verification: any 200 response is returned
as success regardless of its content size. -/
theorem C7_size_check_edge_only :
    (∀ (size : ℕ) (ffmpeg_ok : Bool) (path : String), size < 1000 →
      generate_edge_tts_audio (EdgeResult.created size) ffmpeg_ok path
        = create_silent_audio ffmpeg_ok path) ∧
    (∀ (resp : HttpResponse) (path : String), resp.status_code = 200 →
      elevenlabs_audio resp path = Except.ok path) := by
  constructor
  · intro size ffmpeg_ok path hsize
    simp [generate_edge_tts_audio, hsize]
  · intro resp path h200
    simp [elevenlabs_audio, h200]

/-- C7 witness: a 500-byte Edge-TTS artifact falls through to the silent
fallback; a 0-byte ElevenLabs 200 response is accepted. -/
theorem C7_witness :
    generate_edge_tts_audio (EdgeResult.created 500) true ("v.mp3")
      = create_silent_audio true ("v.mp3") ∧
    elevenlabs_audio { status_code := 200, content_size := 0 } ("v.mp3")
      = Except.ok ("v.mp3") :=
  ⟨C7_size_check_edge_only.1 500 true ("v.mp3") (by norm_num),
   C7_size_check_edge_only.2 { status_code := 200, content_size := 0 }
     ("v.mp3") rfl⟩

/-- C8: whenever the job-status record says `running`, a new `/generate`
request is rejected with a 400 error response, no background job is
started, and the status record is left exactly as it was. -/
theorem C8_running_request_rejected (st : GenerationStatus) (topic : String)
    (h : st.status = "running") :
    generate st topic =
      { response :=
          GenerateResponse.rejected ("Video generation already in progress") 400
      , newStatus := st, jobStarted := false } := by
  simp [generate, h]

/-- C8 witness: a concrete running status with a pending topic. -/
theorem C8_witness :
    generate
        { status := "running", message := "Assembling final video...",
          progress := 80, video_path := none, error := none } ("Volcanoes") =
      { response :=
          GenerateResponse.rejected ("Video generation already in progress") 400
      , newStatus :=
          { status := "running", message := "Assembling final video...",
            progress := 80, video_path := none, error := none }
      , jobStarted := false } :=
  C8_running_request_rejected _ _ rfl

/-- C9: for every script, the persisted metadata's `duration_seconds`
equals the sum of the script's scene durations; and this can differ from
the produced video's stream duration, which is made equal to the audio
duration instead — concretely, the no-credentials fallback script sums to
50 s while its assembled video (five 8-second placeholder clips, 45 s
silent audio) has stream duration 45 s. -/
theorem C9_metadata_duration_is_scene_sum :
    (∀ (s : Script) (vp : String),
      (generate_metadata s vp).duration_seconds = sumDurations s.scenes) ∧
    sumDurations (generate_fallback_script ("Photosynthesis")).scenes = 50 ∧
    step4_combine_into_video
        ((generate_fallback_script ("Photosynthesis")).scenes.map Scene.duration)
        (List.replicate 5
          (some (create_colored_background true ("caption") 0).duration))
        45 true ("final_video_3.mp4")
      = some (("final_video_3.mp4"), 45) ∧
    (45 : ℚ) ≠ 50 := by
  refine ⟨fun s vp => rfl, ?_, ?_, by norm_num⟩
  · simp only [sumDurations, generate_fallback_script, List.map_cons,
      List.map_nil, List.sum_cons, List.sum_nil]
    norm_num
  · have hds :
        (generate_fallback_script ("Photosynthesis")).scenes.map Scene.duration
          = [10, 10, 10, 10, 10] := rfl
    have hcs : List.replicate 5
        (some (create_colored_background true ("caption") 0).duration)
          = [some 8, some 8, some 8, some 8, some 8] := rfl
    rw [hds, hcs]
    have hz : ([(10:ℚ), 10, 10, 10, 10].zip
        [some (8:ℚ), some 8, some 8, some 8, some 8]) =
        [((10:ℚ), some (8:ℚ)), (10, some 8), (10, some 8), (10, some 8),
          (10, some 8)] := rfl
    have hl : load_clips ([((10:ℚ), some (8:ℚ)), (10, some 8), (10, some 8),
        (10, some 8), (10, some 8)]) = [10, 10, 10, 10, 10] := by
      rw [load_clips_cons_some (by norm_num) (by norm_num),
        load_clips_cons_some (by norm_num) (by norm_num),
        load_clips_cons_some (by norm_num) (by norm_num),
        load_clips_cons_some (by norm_num) (by norm_num),
        load_clips_cons_some (by norm_num) (by norm_num), load_clips_nil]
    exact step4_eq_some_of_pos_sum
      (by rw [hz, hl]; exact List.cons_ne_nil _ _)
      (by rw [hz, hl]; norm_num)

/-- C10: a `/generate` request whose topic is empty or whitespace-only is
rejected with a 400 error response, no background job is started, and the
job-status record is left unchanged (whichever rejection branch fires). -/
theorem C10_blank_topic_rejected (st : GenerationStatus) (topic : String)
    (h : pyStrip topic = "") :
    (∃ e, (generate st topic).response = GenerateResponse.rejected e 400) ∧
    (generate st topic).newStatus = st ∧
    (generate st topic).jobStarted = false := by
  by_cases hr : st.status = "running"
  · exact ⟨⟨("Video generation already in progress"), by simp [generate, hr]⟩,
      by simp [generate, hr], by simp [generate, hr]⟩
  · exact ⟨⟨("Please provide a topic"), by simp [generate, hr, h]⟩,
      by simp [generate, hr, h], by simp [generate, hr, h]⟩

/-- C10 witness: a whitespace-only topic against the idle status. -/
theorem C10_witness :
    (∃ e, (generate idle_status ("   ")).response
      = GenerateResponse.rejected e 400) ∧
    (generate idle_status ("   ")).newStatus = idle_status ∧
    (generate idle_status ("   ")).jobStarted = false :=
  C10_blank_topic_rejected idle_status ("   ") (by decide)

end VideoPipeline
